import Mathlib

/-!
Verification development for the blogicum blog application.

The embedding models the data the views operate on (posts, categories,
comments, user profiles) as plain records over `Nat`/`String`/`Bool`, a
relational store as lists of those records, and each request handler in
`src/blogicum/blog/views.py` as a function from the store, the requesting
identity and the request parameters to a response together with the
(possibly mutated) store.  Time is a `Nat` timestamp; the ambient clock
value in scope at a given program point is passed explicitly.

`models.py` is not part of the sources.  Where its content decides a
question, the modelling choice is recorded in the doc comment of the
definition involved (default manager, model Meta ordering).
-/

/-- A blog category: name/slug and an independent publication flag. -/
structure Category where
  id : Nat
  slug : String
  is_published : Bool
deriving DecidableEq, Repr

/-- A user profile.  Only the fields the views consult are modelled
(`username` is the profile lookup key; other editable form fields such as
first/last name and email do not bear on any claim). -/
structure User where
  id : Nat
  username : String
deriving DecidableEq, Repr

/-- A blog post.  Foreign keys are ids; `author` references a `User`,
`category` a `Category`, `location` an optional location id (locations
carry no visibility semantics and are not modelled further). -/
structure Post where
  id : Nat
  title : String
  text : String
  author : Nat
  category : Nat
  location : Option Nat
  is_published : Bool
  pub_date : Nat
deriving DecidableEq, Repr

/-- A comment on a post. -/
structure Comment where
  id : Nat
  text : String
  author : Nat
  post : Nat
deriving DecidableEq, Repr

/-- The relational store the handlers read and write. -/
structure Store where
  categories : List Category
  users : List User
  posts : List Post
  comments : List Comment
deriving DecidableEq, Repr

/-- The requesting identity: `none` is the anonymous user. -/
abbrev Requester := Option User

/-- Responses a handler can produce.  Redirect targets mirror the
`redirect`/`reverse` calls in `views.py`; `render` names the template. -/
inductive Response where
  | render (template : String)
  | redirectLogin
  | redirectIndex
  | redirectPostDetail (pk : Nat)
  | redirectProfile (username : String)
  | notFound
deriving DecidableEq, Repr

/-- `get_object_or_404(Post, pk=pk)`. -/
def findPost (s : Store) (pk : Nat) : Option Post :=
  s.posts.find? (fun p => p.id == pk)

/-- `get_object_or_404(Comment, id=comment_id)`. -/
def findComment (s : Store) (cid : Nat) : Option Comment :=
  s.comments.find? (fun c => c.id == cid)

/-- `get_object_or_404(User, username=username)`. -/
def findUserByUsername (s : Store) (uname : String) : Option User :=
  s.users.find? (fun w => w.username == uname)

/-- `request.user == author` on model instances compares primary keys;
the anonymous user equals no stored user. -/
def isAuthor (user : Requester) (authorId : Nat) : Bool :=
  match user with
  | none => false
  | some w => w.id == authorId

/-- The `category__is_published=True` join condition for a post. -/
def categoryIsPublished (s : Store) (catId : Nat) : Bool :=
  match s.categories.find? (fun c => c.id == catId) with
  | some c => c.is_published
  | none => false

/-- `annotate(comment_count=Count('comments'))` for one post. -/
def commentCount (s : Store) (postId : Nat) : Nat :=
  (s.comments.filter (fun c => c.post == postId)).length

/-- One row of a post listing: the post and, when the queryset annotates
it, the comment count (`none` when the queryset carries no such field). -/
structure Row where
  post : Post
  comment_count : Option Nat
deriving DecidableEq, Repr

/-- Insert a post into a list kept in descending `pub_date` order. -/
def insertByPubDateDesc (p : Post) : List Post → List Post
  | [] => [p]
  | q :: qs =>
    if q.pub_date ≤ p.pub_date then p :: q :: qs
    else q :: insertByPubDateDesc p qs

/-- `order_by('-pub_date')`: sort newest-first. -/
def sortByPubDateDesc : List Post → List Post
  | [] => []
  | p :: ps => insertByPubDateDesc p (sortByPubDateDesc ps)

/-- The published-posts filter shared by `views.PostsMixin.queryset` and
`managers.PostManager.get_queryset`:
`is_published=True, category__is_published=True, pub_date__lte=t`. -/
def publishedPosts (s : Store) (t : Nat) : List Post :=
  s.posts.filter
    (fun p => p.is_published && categoryIsPublished s p.category
      && decide (p.pub_date ≤ t))

/-- The full shared queryset expression: filter, annotate with
`comment_count`, order newest-first. -/
def publishedRows (s : Store) (t : Nat) : List Row :=
  (sortByPubDateDesc (publishedPosts s t)).map
    (fun p => ⟨p, some (commentCount s p.id)⟩)

/-- `views.PostsMixin.queryset` (views.py lines 24-33).  The class
attribute is built when the class body is evaluated, so the
`timezone.now()` in its filter is the clock value at program start
(`tImport`), baked into the attribute. -/
def postsMixinQueryset (s : Store) (tImport : Nat) : List Row :=
  publishedRows s tImport

/-- `IndexListView` serving the public index: the generic list view
serves the class-level queryset, so the request time `tRequest` plays no
role in the result. -/
def indexListing (s : Store) (tImport : Nat) (tRequest : Nat) : List Row :=
  postsMixinQueryset s tImport

/-- `managers.PostManager.get_queryset` (managers.py lines 6-14): the
same expression, but built per call, so `timezone.now()` is the clock at
call time. -/
def postManagerGetQueryset (s : Store) (tCall : Nat) : List Row :=
  publishedRows s tCall

/-- `CategoryPostsListView.get_category`: resolve the slug to a category
with `is_published=True`, 404 otherwise (views.py lines 70-73). -/
def getCategory (s : Store) (slug : String) : Option Category :=
  s.categories.find? (fun c => c.slug == slug && c.is_published)

/-- `CategoryPostsListView.get_queryset` (views.py lines 75-78):
`self.get_category().posts.filter(is_published=True, pub_date__lte=timezone.now())`.
The override replaces the mixin class queryset entirely, so no
`comment_count` field is attached to the rows.  `timezone.now()` is
evaluated inside the method, hence per request (`t`).
Modelled from the spec: the related manager falls back to the Post model
Meta default ordering (models.py is not in src/); the spec fixes listing
order as newest-first, so the rows are sorted by descending `pub_date`. -/
def categoryGetQueryset (s : Store) (slug : String) (t : Nat) :
    Option (List Row) :=
  match getCategory s slug with
  | none => none
  | some cat =>
    some ((sortByPubDateDesc (s.posts.filter
      (fun p => p.category == cat.id && p.is_published
        && decide (p.pub_date ≤ t)))).map (fun p => ⟨p, none⟩))

/-- `ProfileDetailView.get_queryset` (views.py lines 94-103).  The class
queryset annotates `comment_count` and orders by `-pub_date`; the
override filters it by author, and for requesters other than the profile
owner additionally by `pub_date__lte=timezone.now(), is_published=True`
(no category condition).  `timezone.now()` runs inside the method, per
request.  Unknown username gives a 404 (`none`). -/
def profileGetQueryset (s : Store) (requester : Requester)
    (uname : String) (t : Nat) : Option (List Row) :=
  match findUserByUsername s uname with
  | none => none
  | some author =>
    if requester = some author then
      some ((sortByPubDateDesc (s.posts.filter
        (fun p => p.author == author.id))).map
          (fun p => ⟨p, some (commentCount s p.id)⟩))
    else
      some ((sortByPubDateDesc (s.posts.filter
        (fun p => p.author == author.id && decide (p.pub_date ≤ t)
          && p.is_published))).map
          (fun p => ⟨p, some (commentCount s p.id)⟩))

/-- `PostDetailView` (views.py lines 114-127): the generic detail view
fetches the post by `pk` from `Post.objects.select_related(...)` and
renders it with the comment thread and a blank comment form; there is no
dispatch override, queryset filter or visibility test.  `Post.objects` is
the plain unfiltered manager: views.py itself re-applies the full
published filter on top of it in `PostsMixin`, and the filtered manager
is exposed separately as `Post.published` (mixins.py line 17). -/
def postDetailGet (s : Store) (user : Requester) (pk : Nat) : Response :=
  match findPost s pk with
  | none => Response.notFound
  | some _ => Response.render "blog/detail.html"

/-- The editable fields of `PostForm` (`Meta.exclude = ('author',)`).
`submittedAuthor` stands for an author value smuggled into the raw POST
data: the form ignores it because `author` is excluded from its fields. -/
structure PostFormData where
  title : String
  text : String
  pub_date : Nat
  category : Nat
  location : Option Nat
  is_published : Bool
  submittedAuthor : Option Nat
deriving DecidableEq, Repr

/-- Applying a bound `PostForm` to an existing post: every model field in
the form is overwritten, `author` (excluded from the form) is kept. -/
def applyPostForm (p : Post) (d : PostFormData) : Post :=
  { p with
    title := d.title
    text := d.text
    pub_date := d.pub_date
    category := d.category
    location := d.location
    is_published := d.is_published }

/-- The raw POST data of a comment submission.  `CommentForm` has
`Meta.fields = ('text',)`, so only `text` is read by the form;
`submittedAuthor`/`submittedPost` stand for author/post values smuggled
into the raw data, which the form ignores. -/
structure CommentFormData where
  text : String
  submittedAuthor : Option Nat
  submittedPost : Option Nat
deriving DecidableEq, Repr

/-- Validity of a bound `CommentForm`.
Modelled from the spec: the comment `text` column is a required field
(models.py is not in src/), so the form validates exactly when the
submitted text is nonempty. -/
def commentFormIsValid (d : CommentFormData) : Bool :=
  d.text ≠ ""

/-- `PostCreateView` handling of a valid form (views.py lines 144-155):
`form.instance.author = self.request.user`, save, redirect to the profile
page of `self.request.user.username`.  `newId` is the primary key the
store assigns to the inserted row. -/
def postCreateFormValid (s : Store) (w : User) (d : PostFormData)
    (newId : Nat) : Response × Store :=
  let p : Post := ⟨newId, d.title, d.text, w.id, d.category, d.location,
    d.is_published, d.pub_date⟩
  (Response.redirectProfile w.username, { s with posts := s.posts ++ [p] })

/-- The generic update handling `PostUpdateView` delegates to once its
dispatch guard passes: bind the form to the post, save, redirect.
Modelled from the spec: the success location is the updated post's page
(the generic view redirects to the object URL; `get_absolute_url` lives
in models.py, which is not in src/). -/
def postUpdateProceed (s : Store) (pk : Nat) (d : PostFormData) :
    Response × Store :=
  let ps := s.posts.map (fun p => if p.id == pk then applyPostForm p d else p)
  (Response.redirectPostDetail pk, { s with posts := ps })

/-- `PostUpdateView.dispatch` (views.py lines 158-167).  The view's own
`dispatch` runs before every base class in the method resolution order:
it fetches the post (404 if absent) and redirects any requester that is
not the author — including the anonymous user, which equals no author —
to the post detail page.  Only the author reaches `super().dispatch`,
where `LoginRequiredMixin` would redirect an anonymous user to login. -/
def postUpdateDispatch (s : Store) (user : Requester) (pk : Nat)
    (d : PostFormData) : Response × Store :=
  match findPost s pk with
  | none => (Response.notFound, s)
  | some post =>
    if !(isAuthor user post.author) then
      (Response.redirectPostDetail post.id, s)
    else
      match user with
      | none => (Response.redirectLogin, s)
      | some _ => postUpdateProceed s pk d

/-- The generic delete handling `PostDeleteView` delegates to:
delete the post (comments cascade) and redirect to `success_url`,
which the view sets to the index (views.py line 171). -/
def postDeleteProceed (s : Store) (pk : Nat) : Response × Store :=
  let ps := s.posts.filter (fun p => !(p.id == pk))
  let cs := s.comments.filter (fun c => !(c.post == pk))
  (Response.redirectIndex, { s with posts := ps, comments := cs })

/-- `PostDeleteView.dispatch` (views.py lines 170-177): same guard shape
as the update view, but the non-author redirect target is the index. -/
def postDeleteDispatch (s : Store) (user : Requester) (pk : Nat) :
    Response × Store :=
  match findPost s pk with
  | none => (Response.notFound, s)
  | some post =>
    if !(isAuthor user post.author) then
      (Response.redirectIndex, s)
    else
      match user with
      | none => (Response.redirectLogin, s)
      | some _ => postDeleteProceed s pk

/-- `CommentMixin.get_success_url` (views.py lines 58-60): fetch the
comment again and point at its parent post's detail page. -/
def commentGetSuccessUrl (s : Store) (cid : Nat) : Option Response :=
  match findComment s cid with
  | none => none
  | some c => some (Response.redirectPostDetail c.post)

/-- The generic update handling `CommentUpdateView` delegates to: bind
`CommentForm` (text only) to the comment, save, redirect to
`CommentMixin.get_success_url`. -/
def commentUpdateProceed (s : Store) (cid : Nat) (d : CommentFormData) :
    Response × Store :=
  match findComment s cid with
  | none => (Response.notFound, s)
  | some c =>
    let cs := s.comments.map
      (fun x => if x.id == cid then { x with text := d.text } else x)
    (Response.redirectPostDetail c.post, { s with comments := cs })

/-- The generic delete handling the comment delete view delegates to:
fetch the comment (404 if absent), compute the success URL before
deleting, delete, redirect. -/
def commentDeleteProceed (s : Store) (cid : Nat) : Response × Store :=
  match findComment s cid with
  | none => (Response.notFound, s)
  | some c =>
    (Response.redirectPostDetail c.post,
      { s with comments := s.comments.filter (fun x => !(x.id == cid)) })

/-- `CommentMixin.dispatch` (views.py lines 48-56) as inherited by
`CommentUpdateView`: the mixin's `dispatch` precedes `LoginRequiredMixin`
in the method resolution order, fetches the comment (404 if absent) and
redirects any non-author — the anonymous user included — to the parent
post's detail page; only the author reaches the login gate and the
generic handling. -/
def commentUpdateDispatch (s : Store) (user : Requester) (cid : Nat)
    (d : CommentFormData) : Response × Store :=
  match findComment s cid with
  | none => (Response.notFound, s)
  | some c =>
    if !(isAuthor user c.author) then
      (Response.redirectPostDetail c.post, s)
    else
      match user with
      | none => (Response.redirectLogin, s)
      | some _ => commentUpdateProceed s cid d

/-- `CommentMixin.dispatch` as inherited by the comment delete view
(views.py lines 196-197). -/
def commentDeleteDispatch (s : Store) (user : Requester) (cid : Nat) :
    Response × Store :=
  match findComment s cid with
  | none => (Response.notFound, s)
  | some c =>
    if !(isAuthor user c.author) then
      (Response.redirectPostDetail c.post, s)
    else
      match user with
      | none => (Response.redirectLogin, s)
      | some _ => commentDeleteProceed s cid

/-- `add_comment` (views.py lines 180-189).  `@login_required` sends the
anonymous user to the login page.  Otherwise: fetch the post by `pk`
(404 if absent); if the form is valid, build the comment from the form
(text only), then overwrite `comment.author` with `request.user` and
`comment.post` with the fetched post, and save; in either case redirect
to the post detail page of `pk`.  `newId` is the primary key the store
assigns to the inserted row. -/
def add_comment (s : Store) (user : Requester) (pk : Nat)
    (d : CommentFormData) (newId : Nat) : Response × Store :=
  match user with
  | none => (Response.redirectLogin, s)
  | some w =>
    match findPost s pk with
    | none => (Response.notFound, s)
    | some post =>
      if commentFormIsValid d then
        (Response.redirectPostDetail pk,
          { s with comments := s.comments ++ [⟨newId, d.text, w.id, post.id⟩] })
      else
        (Response.redirectPostDetail pk, s)

/-- The editable fields of `UserForm` that bear on the claims (the form
also edits first/last name and email, which no view consults). -/
structure UserFormData where
  username : String
deriving DecidableEq, Repr

/-- `ProfileUpdateView` (views.py lines 130-141).  `LoginRequiredMixin`
is the leftmost base and no dispatch override precedes it, so the
anonymous user is redirected to login.  `get_object` returns
`self.request.user` — the `username` path parameter is never read — so
the generic update view mutates the requester's own record and redirects
to the profile page of the saved object's username. -/
def profileUpdateDispatch (s : Store) (user : Requester)
    (usernameParam : String) (d : UserFormData) : Response × Store :=
  match user with
  | none => (Response.redirectLogin, s)
  | some w =>
    let us := s.users.map
      (fun x => if x.id == w.id then { x with username := d.username } else x)
    (Response.redirectProfile d.username, { s with users := us })

/-! Ordering and membership lemmas for the listing querysets. -/

theorem mem_insertByPubDateDesc {p q : Post} {l : List Post} :
    q ∈ insertByPubDateDesc p l ↔ q = p ∨ q ∈ l := by
  induction l with
  | nil => simp [insertByPubDateDesc]
  | cons x xs ih =>
    by_cases h : x.pub_date ≤ p.pub_date
    · simp [insertByPubDateDesc, h, List.mem_cons]
    · simp only [insertByPubDateDesc, if_neg h, List.mem_cons, ih]
      tauto

theorem mem_sortByPubDateDesc {q : Post} {l : List Post} :
    q ∈ sortByPubDateDesc l ↔ q ∈ l := by
  induction l with
  | nil => simp [sortByPubDateDesc]
  | cons x xs ih =>
    simp [sortByPubDateDesc, mem_insertByPubDateDesc, ih, List.mem_cons]

theorem pairwise_insertByPubDateDesc {p : Post} {l : List Post}
    (h : l.Pairwise (fun a b => b.pub_date ≤ a.pub_date)) :
    (insertByPubDateDesc p l).Pairwise
      (fun a b => b.pub_date ≤ a.pub_date) := by
  induction l with
  | nil => simp [insertByPubDateDesc]
  | cons x xs ih =>
    rcases List.pairwise_cons.mp h with ⟨hx, hxs⟩
    by_cases hc : x.pub_date ≤ p.pub_date
    · simp only [insertByPubDateDesc, if_pos hc]
      refine List.Pairwise.cons ?_ h
      intro b hb
      rcases List.mem_cons.mp hb with rfl | hb
      · exact hc
      · exact le_trans (hx b hb) hc
    · simp only [insertByPubDateDesc, if_neg hc]
      refine List.Pairwise.cons ?_ (ih hxs)
      intro b hb
      rcases mem_insertByPubDateDesc.mp hb with rfl | hb
      · exact le_of_not_le hc
      · exact hx b hb

theorem pairwise_sortByPubDateDesc (l : List Post) :
    (sortByPubDateDesc l).Pairwise
      (fun a b => b.pub_date ≤ a.pub_date) := by
  induction l with
  | nil => simp [sortByPubDateDesc]
  | cons x xs ih => exact pairwise_insertByPubDateDesc ih

/-- A post appears among the rows built from a sorted post list exactly
when it passed the underlying filter, whatever per-row extra data the
queryset attaches. -/
theorem exists_row_mem_map_sort {l : List Post} {f : Post → Row} {p : Post}
    (hf : ∀ q, (f q).post = q) :
    (∃ r ∈ (sortByPubDateDesc l).map f, r.post = p) ↔ p ∈ l := by
  constructor
  · rintro ⟨r, hr, hrp⟩
    rcases List.mem_map.mp hr with ⟨q, hq, rfl⟩
    rw [hf q] at hrp
    subst hrp
    exact mem_sortByPubDateDesc.mp hq
  · intro hp
    exact ⟨f p, List.mem_map.mpr ⟨p, mem_sortByPubDateDesc.mpr hp, rfl⟩, hf p⟩

theorem findPost_id {s : Store} {pk : Nat} {p : Post}
    (h : findPost s pk = some p) : p.id = pk := by
  have := List.find?_some h
  simpa using this

/-! Concrete data used to evaluate the handlers on explicit inputs. -/

/-- Profile owner of the sample posts. -/
def aliceU : User := ⟨1, "alice"⟩

/-- A second registered user. -/
def bobU : User := ⟨2, "bob"⟩

/-- A published category. -/
def techCat : Category := ⟨1, "tech", true⟩

/-- An unpublished category. -/
def secretCat : Category := ⟨2, "secret", false⟩

/-- A publicly visible post (published, published category, past date). -/
def post1 : Post := ⟨1, "p1", "body", 1, 1, none, true, 5⟩

/-- A published post dated after program start (clock 10). -/
def futurePost : Post := ⟨2, "p2", "body", 1, 1, none, true, 20⟩

/-- An unpublished post. -/
def hiddenPost : Post := ⟨3, "p3", "body", 1, 1, none, false, 5⟩

/-- A published, past-dated post whose category is unpublished. -/
def secretPost : Post := ⟨4, "p4", "body", 1, 2, none, true, 5⟩

/-- A comment by bob on `post1`. -/
def comment1 : Comment := ⟨1, "hi", 2, 1⟩

/-- The sample store. -/
def baseStore : Store :=
  ⟨[techCat, secretCat], [aliceU, bobU],
   [post1, futurePost, hiddenPost, secretPost], [comment1]⟩

/-- Sample valid post form data (with a smuggled author value). -/
def samplePostForm : PostFormData := ⟨"t", "x", 5, 1, none, true, some 9⟩

/-- Sample valid comment form data (with smuggled author/post values). -/
def sampleCommentForm : CommentFormData := ⟨"hello", some 9, some 9⟩

/-- Sample invalid comment form data: empty text. -/
def emptyCommentForm : CommentFormData := ⟨"", some 9, some 9⟩

/-- Sample profile form data. -/
def sampleUserForm : UserFormData := ⟨"alice2"⟩

/-! Claim C1. -/

/-- C1: the claim says a published post in a published category appears
in the public index listing at request time `t` exactly when
`pub_date ≤ t`, with visibility recomputed per request.  The code slips:
`views.PostsMixin.queryset` evaluates `timezone.now()` once, when the
class body runs, so the index cutoff is the program-start clock.  At the
concrete input below (program start 10, request time 30, post dated 20)
the post satisfies the published filter at the request time, yet the
index listing omits it; the per-call `PostManager.get_queryset` of
managers.py — the repository's own per-request formulation of the same
filter — includes it. -/
theorem C1_index_clock_frozen_at_start :
    (futurePost.is_published
      && categoryIsPublished baseStore futurePost.category
      && decide (futurePost.pub_date ≤ 30)) = true
    ∧ futurePost ∈ baseStore.posts
    ∧ (indexListing baseStore 10 30).all
        (fun r => !(r.post.id == futurePost.id)) = true
    ∧ (postManagerGetQueryset baseStore 30).any
        (fun r => r.post.id == futurePost.id) = true := by
  decide

/-! Claim C2. -/

/-- C2 counterexample: an anonymous request to update `post1` is not
redirected to the login page — the ownership comparison in
`PostUpdateView.dispatch` runs first (the view's own `dispatch` precedes
`LoginRequiredMixin` in the method resolution order) and sends the
anonymous requester to the post detail page. -/
theorem C2_counterexample_anonymous_update :
    postUpdateDispatch baseStore none 1 samplePostForm
      = (Response.redirectPostDetail 1, baseStore)
    ∧ (Response.redirectPostDetail 1 : Response) ≠ Response.redirectLogin
    ∧ commentDeleteDispatch baseStore none 1
      = (Response.redirectPostDetail 1, baseStore) := by
  decide

/-- C2 (amended): for every anonymous request to update or delete an
existing post or comment, the ownership comparison is reached first and
rejects the request with a redirect to the post detail page (to the
index for post deletion), never the login page, and the store is
unchanged; only the comment-creation handler, whose `login_required`
decorator wraps the whole function, redirects the anonymous user to
login. -/
theorem C2_anonymous_hits_ownership_guard (s : Store) (pk cid nid : Nat)
    (d : PostFormData) (cd : CommentFormData) (post : Post) (c : Comment)
    (hp : findPost s pk = some post) (hc : findComment s cid = some c) :
    postUpdateDispatch s none pk d = (Response.redirectPostDetail post.id, s)
    ∧ postDeleteDispatch s none pk = (Response.redirectIndex, s)
    ∧ commentUpdateDispatch s none cid cd
        = (Response.redirectPostDetail c.post, s)
    ∧ commentDeleteDispatch s none cid
        = (Response.redirectPostDetail c.post, s)
    ∧ add_comment s none pk cd nid = (Response.redirectLogin, s) := by
  simp [postUpdateDispatch, postDeleteDispatch, commentUpdateDispatch,
    commentDeleteDispatch, add_comment, hp, hc, isAuthor]

/-- C2 witness: the amended statement evaluated on the sample store. -/
theorem C2_anonymous_hits_ownership_guard_witness :
    postUpdateDispatch baseStore none 1 samplePostForm
      = (Response.redirectPostDetail post1.id, baseStore)
    ∧ postDeleteDispatch baseStore none 1 = (Response.redirectIndex, baseStore)
    ∧ commentUpdateDispatch baseStore none 1 sampleCommentForm
        = (Response.redirectPostDetail comment1.post, baseStore)
    ∧ commentDeleteDispatch baseStore none 1
        = (Response.redirectPostDetail comment1.post, baseStore)
    ∧ add_comment baseStore none 1 sampleCommentForm 7
        = (Response.redirectLogin, baseStore) :=
  C2_anonymous_hits_ownership_guard baseStore 1 1 7 samplePostForm
    sampleCommentForm post1 comment1 (by decide) (by decide)

/-! Claim C3. -/

/-- C3 counterexample: `hiddenPost` is unpublished, the requester is
anonymous (so not entitled to see it), yet the detail handler renders
the page instead of a not-found outcome — `PostDetailView` performs no
visibility check. -/
theorem C3_counterexample_hidden_post_served :
    findPost baseStore 3 = some hiddenPost
    ∧ hiddenPost.is_published = false
    ∧ postDetailGet baseStore none 3 ≠ Response.notFound := by
  decide

/-- C3 (amended): the detail handler applies no visibility test at all —
every post present in the store is served to every requester, visible or
not; a not-found outcome arises only when no post has the requested key. -/
theorem C3_detail_serves_any_stored_post (s : Store) (u : Requester)
    (pk : Nat) :
    ((findPost s pk).isSome →
      postDetailGet s u pk = Response.render "blog/detail.html")
    ∧ (findPost s pk = none → postDetailGet s u pk = Response.notFound) := by
  constructor
  · intro h
    rcases Option.isSome_iff_exists.mp h with ⟨p, hp⟩
    simp [postDetailGet, hp]
  · intro h
    simp [postDetailGet, h]

/-- C3 witness: the unpublished sample post is rendered for the
anonymous requester. -/
theorem C3_detail_serves_any_stored_post_witness :
    postDetailGet baseStore none 3 = Response.render "blog/detail.html" :=
  (C3_detail_serves_any_stored_post baseStore none 3).1 (by decide)

/-! Claim C4. -/

/-- C4 counterexample: `secretPost` is published but its category is
unpublished; the claim says it is excluded from the non-owner profile
listing, yet bob viewing the alice profile at time 10 sees it —
`ProfileDetailView.get_queryset` never filters on the category flag. -/
theorem C4_counterexample_unpublished_category_listed :
    categoryIsPublished baseStore secretPost.category = false
    ∧ secretPost.is_published = true
    ∧ secretPost.author = aliceU.id
    ∧ (∃ r ∈ (profileGetQueryset baseStore (some bobU) "alice" 10).getD [],
        r.post = secretPost) := by
  refine ⟨by decide, by decide, by decide, ?_⟩
  decide

/-- C4 (amended): when the username resolves, the profile listing for
the owner contains exactly every post the owner authored (unpublished
and future ones included); for any other requester it contains exactly
the posts with `is_published = true` and `pub_date ≤ now` — the
publication state of the category is not consulted. -/
theorem C4_profile_listing_membership (s : Store) (requester : Requester)
    (uname : String) (t : Nat) (author : User) (p : Post)
    (h : findUserByUsername s uname = some author) :
    (profileGetQueryset s requester uname t).isSome = true
    ∧ (requester = some author →
        ((∃ r ∈ (profileGetQueryset s requester uname t).getD [],
            r.post = p)
          ↔ p ∈ s.posts ∧ p.author = author.id))
    ∧ (requester ≠ some author →
        ((∃ r ∈ (profileGetQueryset s requester uname t).getD [],
            r.post = p)
          ↔ p ∈ s.posts ∧ p.author = author.id ∧ p.pub_date ≤ t
              ∧ p.is_published = true)) := by
  refine ⟨?_, ?_, ?_⟩
  · by_cases hr : requester = some author <;>
      simp [profileGetQueryset, h, hr]
  · intro hr
    rw [profileGetQueryset, h]
    simp only [if_pos hr, Option.getD_some]
    rw [exists_row_mem_map_sort (fun q => rfl)]
    simp [List.mem_filter]
  · intro hr
    rw [profileGetQueryset, h]
    simp only [if_neg hr, Option.getD_some]
    rw [exists_row_mem_map_sort (fun q => rfl)]
    simp [List.mem_filter, and_assoc]

/-- C4 witness: on the sample store, bob (not the owner) sees the
published past-dated `secretPost` of alice, and alice (the owner) sees
her unpublished `hiddenPost`. -/
theorem C4_profile_listing_membership_witness :
    ((∃ r ∈ (profileGetQueryset baseStore (some bobU) "alice" 10).getD [],
        r.post = secretPost)
      ↔ secretPost ∈ baseStore.posts ∧ secretPost.author = aliceU.id
          ∧ secretPost.pub_date ≤ 10 ∧ secretPost.is_published = true) :=
  (C4_profile_listing_membership baseStore (some bobU) "alice" 10 aliceU
    secretPost (by decide)).2.2 (by decide)

/-! Claim C5. -/

/-- C5: an authenticated comment creation with a valid form appends a
comment whose `author` is the requesting user and whose `post` is the
post resolved from `pk`, whatever author/post values the raw form data
smuggles in (the form reads only `text`, and `add_comment` overwrites
both fields); likewise a post created through the create view is stored
with `author` set to the requesting user, whatever the form data
submits for that field. -/
theorem C5_creation_pins_author_and_post (s : Store) (w : User)
    (pk nid pid : Nat) (d : CommentFormData) (pd : PostFormData) (post : Post)
    (hp : findPost s pk = some post) (hv : commentFormIsValid d = true) :
    (add_comment s (some w) pk d nid).1 = Response.redirectPostDetail pk
    ∧ (add_comment s (some w) pk d nid).2.comments
        = s.comments ++ [⟨nid, d.text, w.id, post.id⟩]
    ∧ post.id = pk
    ∧ (postCreateFormValid s w pd pid).2.posts
        = s.posts ++ [⟨pid, pd.title, pd.text, w.id, pd.category,
            pd.location, pd.is_published, pd.pub_date⟩]
    ∧ (postCreateFormValid s w pd pid).1
        = Response.redirectProfile w.username := by
  refine ⟨?_, ?_, findPost_id hp, rfl, rfl⟩ <;>
    simp [add_comment, hp, hv]

/-- C5 witness: bob comments on post 1 with form data that smuggles in
author/post value 9; the stored comment carries bob and post 1. -/
theorem C5_creation_pins_author_and_post_witness :
    (add_comment baseStore (some bobU) 1 sampleCommentForm 7).1
      = Response.redirectPostDetail 1
    ∧ (add_comment baseStore (some bobU) 1 sampleCommentForm 7).2.comments
        = baseStore.comments ++ [⟨7, sampleCommentForm.text, bobU.id, post1.id⟩]
    ∧ post1.id = 1
    ∧ (postCreateFormValid baseStore bobU samplePostForm 8).2.posts
        = baseStore.posts ++ [⟨8, samplePostForm.title, samplePostForm.text,
            bobU.id, samplePostForm.category, samplePostForm.location,
            samplePostForm.is_published, samplePostForm.pub_date⟩]
    ∧ (postCreateFormValid baseStore bobU samplePostForm 8).1
        = Response.redirectProfile bobU.username :=
  C5_creation_pins_author_and_post baseStore bobU 1 7 8 sampleCommentForm
    samplePostForm post1 (by decide) (by decide)

/-! Claim C6. -/

/-- C6: for an authenticated requester and an existing post/comment, an
author mismatch makes each dispatch return its redirect — the post
detail page for post updates and comment updates/deletes, the index for
post deletes — with the store untouched, while an author match hands
control to the standard update/delete handling. -/
theorem C6_ownership_mismatch_redirects (s : Store) (w : User)
    (pk cid : Nat) (d : PostFormData) (cd : CommentFormData)
    (post : Post) (c : Comment)
    (hp : findPost s pk = some post) (hc : findComment s cid = some c) :
    (w.id ≠ post.author →
      postUpdateDispatch s (some w) pk d
          = (Response.redirectPostDetail post.id, s)
      ∧ postDeleteDispatch s (some w) pk = (Response.redirectIndex, s))
    ∧ (w.id = post.author →
      postUpdateDispatch s (some w) pk d = postUpdateProceed s pk d
      ∧ postDeleteDispatch s (some w) pk = postDeleteProceed s pk)
    ∧ (w.id ≠ c.author →
      commentUpdateDispatch s (some w) cid cd
          = (Response.redirectPostDetail c.post, s)
      ∧ commentDeleteDispatch s (some w) cid
          = (Response.redirectPostDetail c.post, s))
    ∧ (w.id = c.author →
      commentUpdateDispatch s (some w) cid cd = commentUpdateProceed s cid cd
      ∧ commentDeleteDispatch s (some w) cid = commentDeleteProceed s cid) := by
  refine ⟨fun h => ?_, fun h => ?_, fun h => ?_, fun h => ?_⟩ <;>
    constructor <;>
      simp [postUpdateDispatch, postDeleteDispatch, commentUpdateDispatch,
        commentDeleteDispatch, hp, hc, isAuthor, h]

/-- C6 witness: bob is not the author of `post1` and gets both
redirects; bob is the author of `comment1` and reaches the standard
handling for it. -/
theorem C6_ownership_mismatch_redirects_witness :
    (postUpdateDispatch baseStore (some bobU) 1 samplePostForm
        = (Response.redirectPostDetail post1.id, baseStore)
      ∧ postDeleteDispatch baseStore (some bobU) 1
        = (Response.redirectIndex, baseStore))
    ∧ (commentUpdateDispatch baseStore (some bobU) 1 sampleCommentForm
        = commentUpdateProceed baseStore 1 sampleCommentForm
      ∧ commentDeleteDispatch baseStore (some bobU) 1
        = commentDeleteProceed baseStore 1) :=
  let h := C6_ownership_mismatch_redirects baseStore bobU 1 1
    samplePostForm sampleCommentForm post1 comment1 (by decide) (by decide)
  ⟨h.1 (by decide), h.2.2.2 (by decide)⟩

/-! Claim C7. -/

/-- C7: when the author of an existing comment requests its deletion,
the comment is removed from the store and the handler completes with a
redirect to the parent post's detail page (the success URL is computed
from the comment before the row is deleted), not with a not-found or
other error outcome. -/
theorem C7_author_delete_removes_and_redirects (s : Store) (w : User)
    (cid : Nat) (c : Comment)
    (hc : findComment s cid = some c) (ha : w.id = c.author) :
    (commentDeleteDispatch s (some w) cid).1
        = Response.redirectPostDetail c.post
    ∧ findComment (commentDeleteDispatch s (some w) cid).2 cid = none
    ∧ (commentDeleteDispatch s (some w) cid).2.posts = s.posts := by
  have hdisp : commentDeleteDispatch s (some w) cid
      = commentDeleteProceed s cid := by
    simp [commentDeleteDispatch, hc, isAuthor, ha]
  have hpr : commentDeleteProceed s cid
      = (Response.redirectPostDetail c.post,
         { s with comments := s.comments.filter (fun x => !(x.id == cid)) }) := by
    simp [commentDeleteProceed, hc]
  rw [hdisp, hpr]
  refine ⟨rfl, ?_, rfl⟩
  simp only [findComment]
  apply List.find?_eq_none.mpr
  intro x hx
  have := (List.mem_filter.mp hx).2
  simp_all

/-- C7 witness: bob deletes his comment on post 1. -/
theorem C7_author_delete_removes_and_redirects_witness :
    (commentDeleteDispatch baseStore (some bobU) 1).1
        = Response.redirectPostDetail comment1.post
    ∧ findComment (commentDeleteDispatch baseStore (some bobU) 1).2 1 = none
    ∧ (commentDeleteDispatch baseStore (some bobU) 1).2.posts
        = baseStore.posts :=
  C7_author_delete_removes_and_redirects baseStore bobU 1 comment1
    (by decide) (by decide)

/-! Claim C8. -/

/-- C8 counterexample: an invalid comment submission (empty text) by an
authenticated user on an existing post does not re-render the form —
`add_comment` unconditionally redirects to the post detail page (the
store is indeed left unchanged). -/
theorem C8_counterexample_invalid_form_redirects :
    commentFormIsValid emptyCommentForm = false
    ∧ add_comment baseStore (some bobU) 1 emptyCommentForm 7
        = (Response.redirectPostDetail 1, baseStore)
    ∧ (Response.redirectPostDetail 1 : Response)
        ≠ Response.render "blog/comment.html" := by
  decide

/-- C8 (amended): an invalid comment submission by an authenticated user
on an existing post persists nothing — the store is returned unchanged —
but the handler answers with a redirect to the post detail page rather
than re-rendering the form with validation messages. -/
theorem C8_invalid_form_no_persistence (s : Store) (w : User)
    (pk nid : Nat) (d : CommentFormData) (post : Post)
    (hp : findPost s pk = some post) (hv : commentFormIsValid d = false) :
    add_comment s (some w) pk d nid = (Response.redirectPostDetail pk, s) := by
  simp [add_comment, hp, hv]

/-- C8 witness: the empty-text submission on the sample store. -/
theorem C8_invalid_form_no_persistence_witness :
    add_comment baseStore (some bobU) 1 emptyCommentForm 7
      = (Response.redirectPostDetail 1, baseStore) :=
  C8_invalid_form_no_persistence baseStore bobU 1 7 emptyCommentForm post1
    (by decide) (by decide)

/-! Claim C9. -/

/-- C9 counterexample: the slug "tech" resolves to a published category
and `post1` (which has one comment) is listed, but its row carries no
comment count — `CategoryPostsListView.get_queryset` replaces the mixin
queryset with a plain filter and never annotates. -/
theorem C9_counterexample_no_count_attached :
    getCategory baseStore "tech" = some techCat
    ∧ commentCount baseStore post1.id = 1
    ∧ (∃ r ∈ (categoryGetQueryset baseStore "tech" 10).getD [],
        r.post = post1
          ∧ r.comment_count ≠ some (commentCount baseStore post1.id)) := by
  refine ⟨by decide, by decide, ?_⟩
  decide

/-- C9 (amended): when the slug resolves to a published category, the
returned rows are exactly that category's posts with
`is_published = true ∧ pub_date ≤ now`, ordered newest-first by
publication timestamp — but carrying no comment-count field (the
override drops the annotated mixin queryset). -/
theorem C9_category_listing_membership (s : Store) (slug : String)
    (t : Nat) (cat : Category) (p : Post)
    (h : getCategory s slug = some cat) :
    (categoryGetQueryset s slug t).isSome = true
    ∧ ((∃ r ∈ (categoryGetQueryset s slug t).getD [], r.post = p)
        ↔ p ∈ s.posts ∧ p.category = cat.id ∧ p.is_published = true
            ∧ p.pub_date ≤ t)
    ∧ ((categoryGetQueryset s slug t).getD []).Pairwise
        (fun a b => b.post.pub_date ≤ a.post.pub_date)
    ∧ (∀ r ∈ (categoryGetQueryset s slug t).getD [],
        r.comment_count = none) := by
  refine ⟨by simp [categoryGetQueryset, h], ?_, ?_, ?_⟩
  · rw [categoryGetQueryset, h]
    simp only [Option.getD_some]
    rw [exists_row_mem_map_sort (fun q => rfl)]
    simp [List.mem_filter, and_assoc]
  · rw [categoryGetQueryset, h]
    simp only [Option.getD_some]
    rw [List.pairwise_map]
    exact pairwise_sortByPubDateDesc _
  · rw [categoryGetQueryset, h]
    simp only [Option.getD_some]
    intro r hr
    rcases List.mem_map.mp hr with ⟨q, _, rfl⟩
    rfl

/-- C9 witness: the published sample category at time 10 lists `post1`
(and the membership characterization holds for it). -/
theorem C9_category_listing_membership_witness :
    ((∃ r ∈ (categoryGetQueryset baseStore "tech" 10).getD [],
        r.post = post1)
      ↔ post1 ∈ baseStore.posts ∧ post1.category = techCat.id
          ∧ post1.is_published = true ∧ post1.pub_date ≤ 10) :=
  (C9_category_listing_membership baseStore "tech" 10 techCat post1
    (by decide)).2.1

/-! Claim C10. -/

/-- C10: for an authenticated profile-update request the object read and
written is `request.user` — the `username` path parameter is never
consulted — so the same requester record is updated for any two values
of the parameter, every other user record is left untouched, the
requester's record receives the submitted username, and an anonymous
request is stopped at the login gate. -/
theorem C10_profile_update_ignores_path_param (s : Store) (w : User)
    (p1 p2 : String) (d : UserFormData) :
    profileUpdateDispatch s (some w) p1 d
        = profileUpdateDispatch s (some w) p2 d
    ∧ (∀ x ∈ (profileUpdateDispatch s (some w) p1 d).2.users,
        x.id ≠ w.id → x ∈ s.users)
    ∧ (∀ x ∈ s.users, x.id = w.id →
        ({ x with username := d.username } : User)
          ∈ (profileUpdateDispatch s (some w) p1 d).2.users)
    ∧ profileUpdateDispatch s none p1 d = (Response.redirectLogin, s) := by
  refine ⟨rfl, ?_, ?_, rfl⟩
  · intro x hx hne
    simp only [profileUpdateDispatch, List.mem_map] at hx
    rcases hx with ⟨y, hy, hxy⟩
    by_cases h : y.id = w.id
    · exfalso
      apply hne
      rw [← hxy]
      simp [h]
    · rw [← hxy]
      simpa [h] using hy
  · intro x hx hid
    simp only [profileUpdateDispatch]
    apply List.mem_map.mpr
    exact ⟨x, hx, by simp [hid]⟩

/-- C10 witness: alice submitting through the bob-named URL updates the
same record as through her own URL. -/
theorem C10_profile_update_ignores_path_param_witness :
    profileUpdateDispatch baseStore (some aliceU) "bob" sampleUserForm
      = profileUpdateDispatch baseStore (some aliceU) "alice" sampleUserForm :=
  (C10_profile_update_ignores_path_param baseStore aliceU "bob" "alice"
    sampleUserForm).1
